import Mathlib

/-!
Shallow embedding of the product-code derivation and record-normalization
engine of GestProdAdmin (src/database/production_models.py,
src/ui/production.py, src/ui/production_models.py), with theorems checking
the natural-language specification against it.

Python strings are modelled as `List Char`; SQLite column values as `DbVal`
(NULL / INTEGER / REAL / TEXT), with REAL idealized as an exact decimal.
Definitions come first, theorems follow.
-/

namespace GestProd

/-- Python string model: a list of characters. -/
abbrev Str : Type := List Char

/-- Python `str.zfill(w)`: left-pad with `'0'` up to width `w`, keeping a
leading sign character in front of the inserted padding. -/
def zfill (w : Nat) (s : Str) : Str :=
  if w ≤ s.length then s
  else
    match s with
    | c :: rest =>
        if c = '-' ∨ c = '+' then c :: (List.replicate (w - s.length) '0' ++ rest)
        else List.replicate (w - s.length) '0' ++ s
    | [] => List.replicate w '0'

/-- Python `s[-n:]`: the last `n` characters of `s` (all of `s` when it is
shorter than `n`). -/
def lastN (n : Nat) (s : Str) : Str := s.drop (s.length - n)

/-- The quality/observation splice performed by
`ProductionControlWidget.cambiar_calidad_obs` (src/ui/production.py, lines
460-462) and by `_actualizar_codigos_producto_inicial` (lines 43-48):
`codprod[:4] + calidad_val.zfill(2)[-2:] + obs_val.zfill(2)[-2:] + codprod[8:]`. -/
def splice_calidad_obs (codprod calidad_val obs_val : Str) : Str :=
  codprod.take 4 ++ lastN 2 (zfill 2 calidad_val) ++ lastN 2 (zfill 2 obs_val)
    ++ codprod.drop 8

/-- An exact decimal number `m / 10 ^ e`: the idealization of a Python float
used throughout the embedding.  Every float stored in a SQLite REAL column is
a dyadic rational, hence has a terminating decimal expansion, so this type
covers all values the formatters are applied to; float rounding error is not
modelled. -/
structure Dec10 where
  m : Int
  e : Nat
deriving DecidableEq

/-- Ten to the `k` as an integer. -/
def pow10 (k : Nat) : Int := ((10 ^ k : Nat) : Int)

/-- Strip factors of 10 shared between mantissa and exponent, so that equal
values get equal representations. -/
def normAux : Int → Nat → Dec10
  | m, 0 => ⟨m, 0⟩
  | m, e + 1 => if m % 10 = 0 then normAux (m / 10) e else ⟨m, e + 1⟩

/-- Normalized form of a decimal. -/
def Dec10.norm (d : Dec10) : Dec10 := normAux d.m d.e

/-- The decimal `m / 10 ^ e`, normalized. -/
def decOf (m : Int) (e : Nat) : Dec10 := Dec10.norm ⟨m, e⟩

/-- Multiply a decimal by `10 ^ k`. -/
def Dec10.mulPow10 (d : Dec10) (k : Nat) : Dec10 :=
  if k ≤ d.e then ⟨d.m, d.e - k⟩ else ⟨d.m * pow10 (k - d.e), 0⟩

/-- Absolute value of a decimal. -/
def Dec10.abs (d : Dec10) : Dec10 := ⟨|d.m|, d.e⟩

/-- Whether a decimal is negative. -/
def Dec10.neg? (d : Dec10) : Bool := d.m < 0

/-- Python `int(x)`: truncation toward zero. -/
def Dec10.trunc (d : Dec10) : Int :=
  let t : Nat := d.m.natAbs / 10 ^ d.e
  if d.m < 0 then -(t : Int) else (t : Int)

/-- Floor of a decimal. -/
def Dec10.floor (d : Dec10) : Int := Int.fdiv d.m (pow10 d.e)

/-- Python `round(x)` (banker's rounding: ties go to the even integer). -/
def Dec10.pyRound (d : Dec10) : Int :=
  let f := d.floor
  let nr := d.m - f * pow10 d.e
  if 2 * nr < pow10 d.e then f
  else if pow10 d.e < 2 * nr then f + 1
  else if f % 2 = 0 then f else f + 1

/-- Fractional part `x - int(x)` of a nonnegative decimal. -/
def Dec10.frac (d : Dec10) : Dec10 := ⟨d.m - d.trunc * pow10 d.e, d.e⟩

/-- A dynamically-typed SQLite column value: NULL, INTEGER, REAL or TEXT. -/
inductive DbVal : Type
  | vnull : DbVal
  | vint : Int → DbVal
  | vreal : Dec10 → DbVal
  | vtext : Str → DbVal
deriving DecidableEq

open DbVal

/-- Python truthiness of a database value (`if not value: ...`). -/
def pyFalsy (v : DbVal) : Bool :=
  match v with
  | vnull => true
  | vint n => n = 0
  | vreal d => d.m = 0
  | vtext s => s = []

/-- Characters stripped by Python `str.strip()` (the ASCII whitespace set). -/
def isPySpace (c : Char) : Bool :=
  c = ' ' ∨ c = '\t' ∨ c = '\n' ∨ c = '\r' ∨ c = '\x0b' ∨ c = '\x0c'

/-- Python `str.strip()`. -/
def pyStrip (s : Str) : Str :=
  ((s.dropWhile isPySpace).reverse.dropWhile isPySpace).reverse

/-- Numeric value of a digit string (most significant digit first). -/
def digitsVal (s : Str) : Nat :=
  s.foldl (fun a c => a * 10 + (c.toNat - 48)) 0

/-- Exponent part of a Python float literal: `[+-]?digits` applied to an
already-parsed mantissa. -/
def parseExp (mant : Dec10) (t : Str) : Option Dec10 :=
  let p := match t with
    | '+' :: r => ((1 : Int), r)
    | '-' :: r => ((-1 : Int), r)
    | _ => ((1 : Int), t)
  let ds := p.2.takeWhile Char.isDigit
  if ds = [] ∨ p.2.dropWhile Char.isDigit ≠ [] then none
  else if p.1 = 1 then some (mant.mulPow10 (digitsVal ds))
  else some ⟨mant.m, mant.e + digitsVal ds⟩

/-- Unsigned Python float literal: `digits [. digits] [exp]` or `. digits [exp]`. -/
def parseUnsignedFloat (s : Str) : Option Dec10 :=
  let ip := s.takeWhile Char.isDigit
  let r1 := s.dropWhile Char.isDigit
  let fp := match r1 with
    | '.' :: t => t.takeWhile Char.isDigit
    | _ => []
  let r2 := match r1 with
    | '.' :: t => t.dropWhile Char.isDigit
    | _ => r1
  if ip = [] ∧ fp = [] then none
  else
    let mant : Dec10 := ⟨(digitsVal ip : Int) * pow10 fp.length + (digitsVal fp : Int), fp.length⟩
    match r2 with
    | [] => some mant
    | 'e' :: t => parseExp mant t
    | 'E' :: t => parseExp mant t
    | _ => none

/-- Python `float(str)` on decimal literals: strip whitespace, optional sign,
mantissa, optional exponent.  (`inf`/`nan` spellings and `_` digit separators
are not modelled; no theorem below depends on them.) -/
def parseFloat (s : Str) : Option Dec10 :=
  let t := pyStrip s
  let u := match t with
    | '+' :: r => parseUnsignedFloat r
    | '-' :: r => (parseUnsignedFloat r).map (fun (d : Dec10) => Dec10.mk (-d.m) d.e)
    | _ => parseUnsignedFloat t
  u.map Dec10.norm

/-- Python `float(value)` on a database value; `none` is the
`ValueError`/`TypeError` outcome. -/
def pyFloat (v : DbVal) : Option Dec10 :=
  match v with
  | vnull => none
  | vint n => some ⟨n, 0⟩
  | vreal d => some d
  | vtext s => parseFloat s

/-- Python `str(int)`. -/
def intStr (n : Int) : Str := (toString n).data

/-- Python `str.ljust(w, c)`. -/
def ljust (w : Nat) (c : Char) (s : Str) : Str :=
  s ++ List.replicate (w - s.length) c

/-- Python `str(float)` of a normalized decimal: sign, integer part, `'.'`,
then the fractional digits (a single `'0'` when the value is integral). -/
def decRepr (d : Dec10) : Str :=
  let sign : Str := if d.m < 0 then ['-'] else []
  let ipart : Nat := d.m.natAbs / 10 ^ d.e
  let fpart : Nat := d.m.natAbs % 10 ^ d.e
  let ds : Str := if d.e = 0 then ['0'] else zfill d.e (toString fpart).data
  sign ++ (toString ipart).data ++ '.' :: ds

/-- Python `str(value)` on a database value. -/
def pyStr (v : DbVal) : Str :=
  match v with
  | vnull => "None".data
  | vint n => intStr n
  | vreal d => decRepr d.norm
  | vtext s => s

/-- The `is_empty` helper of `update_empty_bobinas_fields`
(src/database/production_models.py, lines 591-592): `value is None or
(isinstance(value, str) and value.strip() == '')`. -/
def is_empty (v : DbVal) : Bool :=
  match v with
  | vnull => true
  | vtext s => pyStrip s = []
  | _ => false

/-- Weight-class formatter `ProductionData._format_gramaje`
(src/database/production_models.py, lines 344-354): integer part of
`float(gramaje)` zero-filled to width 3; `None` gives `"000"`, a conversion
error gives `"0000"`. -/
def _format_gramaje (gramaje : DbVal) : Str :=
  if gramaje = vnull then "000".data
  else
    match pyFloat gramaje with
    | some q => zfill 3 (intStr q.trunc)
    | none => "0000".data

/-- Diameter formatter `ProductionData._format_diametro`
(src/database/production_models.py, lines 356-366): `int(float(diametro) *
10)` rendered as `f"{valor:04d}"`. -/
def _format_diametro (diametro : DbVal) : Str :=
  if diametro = vnull then "0000".data
  else
    match pyFloat diametro with
    | some q => zfill 4 (intStr (q.mulPow10 1).trunc)
    | none => "0000".data

/-- Width formatter `ProductionData._format_ancho`
(src/database/production_models.py, lines 414-458): 3 integer digits plus 2
decimal digits, comma accepted as decimal separator, sign preserved, result
truncated to 5 characters and right-padded with `'0'`. -/
def _format_ancho (ancho : DbVal) : Str :=
  if ancho = vnull then "00000".data
  else
    let anchoNorm : DbVal :=
      match ancho with
      | vtext s => vtext ((pyStrip s).map (fun c => if c = ',' then '.' else c))
      | v => v
    match pyFloat anchoNorm with
    | none => "00000".data
    | some valor =>
        let esNegativo := valor.neg?
        let v := valor.abs
        let parteEntera : Nat := v.trunc.toNat
        let parteDecimal : Dec10 := v.frac
        let strEntero := lastN 3 (zfill 3 (intStr (parteEntera : Int)))
        let decimalRedondeado := (parteDecimal.mulPow10 2).pyRound
        let strDecimal := (zfill 2 (intStr decimalRedondeado)).take 2
        let resultado := strEntero ++ strDecimal
        let resultado2 := if esNegativo then '-' :: resultado else resultado
        ljust 5 '0' (resultado2.take 5)

/-- Peso rendered for `CantidadEnPrimeraUdM`
(src/database/production_models.py, lines 632-640):
`f"{float(peso):.2f}".replace('.', ',')`, with `"0,00"` on conversion error. -/
def format_peso_2dp (peso : DbVal) : Str :=
  match pyFloat peso with
  | none => "0,00".data
  | some x =>
      let neg := x.neg?
      let m := ((x.abs.mulPow10 2).pyRound).toNat
      (if neg then ['-'] else []) ++ (toString (m / 100)).data
        ++ ',' :: zfill 2 (intStr ((m % 100 : Nat) : Int))

/-- Stringify-and-strip with a None guard:
`str(x).strip() if x is not None else ''`
(src/database/production_models.py, lines 800-801). -/
def strippedOrEmpty (v : DbVal) : Str :=
  if v = vnull then [] else pyStrip (pyStr v)

/-- Normalization of `codprod` in `ProductionData.update_quality_fields`
(src/database/production_models.py, lines 800 and 817-820): stringify and
strip, left-strip `'0'`, and turn an empty result into `"0"`. -/
def normalizeCodprod (codprod : DbVal) : Str :=
  let n := (strippedOrEmpty codprod).dropWhile (· = '0')
  if n = [] then ['0'] else n

/-- The quality/observation branch chain of `update_quality_fields`
(src/database/production_models.py, lines 826-851), on the normalized
product-type code. -/
def qualityTableCode (n : Str) : Str × Str :=
  if n = "3".data then ("05".data, "02".data)
  else if n = "1".data then ("01".data, "00".data)
  else if n = "2".data then ("01".data, "02".data)
  else if n = "4".data then ("01".data, "00".data)
  else if n = "5".data then ("05".data, "02".data)
  else if n = "6".data then ("01".data, "02".data)
  else if n = "7".data then ("01".data, "00".data)
  else ("01".data, "00".data)

/-- The quality/observation deriver: normalization followed by the branch
chain of `update_quality_fields`. -/
def derive_quality_obs (codprod : DbVal) : Str × Str :=
  qualityTableCode (normalizeCodprod codprod)

/-- Spec-side definition of the deriver's fixed table (spec §4.4), written
from the specification's words for comparison with the code's branch chain:
normalized `"3"`/`"5"` give `("05","02")`, `"2"`/`"6"` give `("01","02")`,
everything else gives `("01","00")`. -/
def spec_quality_table (n : Str) : Str × Str :=
  if n = "3".data ∨ n = "5".data then ("05".data, "02".data)
  else if n = "2".data ∨ n = "6".data then ("01".data, "02".data)
  else ("01".data, "00".data)

/-- One row of the discovered `bobina` table, with the columns the core logic
reads and writes.  The source keeps a row as a list indexed by discovered
column names; this is the same data keyed by field, for the deployed schema
in which all of these columns exist (the optional date columns `fecha`,
`fechaElaboracion`, `fechaValidezLote` are taken as absent, the
`has_fecha* = False` branches of `update_quality_fields`). -/
structure BobinaRow where
  bobina_num : DbVal := DbVal.vnull
  sec : DbVal := DbVal.vnull
  of : DbVal := DbVal.vnull
  alistamiento : DbVal := DbVal.vnull
  codprod : DbVal := DbVal.vnull
  calidad : DbVal := DbVal.vnull
  obs : DbVal := DbVal.vnull
  producto : DbVal := DbVal.vnull
  gramaje : DbVal := DbVal.vnull
  diametro : DbVal := DbVal.vnull
  ancho : DbVal := DbVal.vnull
  peso : DbVal := DbVal.vnull
  lote : DbVal := DbVal.vnull
  nroOT : DbVal := DbVal.vnull
  codigoDeProducto : DbVal := DbVal.vnull
  cantidadEnPrimeraUdM : DbVal := DbVal.vnull
deriving DecidableEq

/-- Per-row effect of `ProductionData.update_quality_fields`
(src/database/production_models.py, lines 778-919) on a schema without the
optional date columns: `calidad` and `obs` are set from the deriver, and
`producto` is filled with the second character of `codprod` when `producto`
is blank and `codprod` has at least 2 characters. -/
def update_quality_row (r : BobinaRow) : BobinaRow :=
  let codprod_str := strippedOrEmpty r.codprod
  let producto_str := strippedOrEmpty r.producto
  let p := derive_quality_obs r.codprod
  let producto2 :=
    if producto_str = [] ∧ 2 ≤ codprod_str.length then
      vtext [match codprod_str with | _ :: c :: _ => c | _ => '0']
    else r.producto
  { r with calidad := vtext p.1, obs := vtext p.2, producto := producto2 }

/-- The whole-table pass `update_quality_fields`: every fetched row is
updated (the `SELECT rowid, * FROM {table}` query has no filter). -/
def update_quality_fields (db : List BobinaRow) : List BobinaRow :=
  db.map update_quality_row

/-- String form of a row's composite code, as read by the bulk recode:
`str(row_data[col_codprod]) if row_data[col_codprod] is not None else ''`
(src/ui/production.py, line 458). -/
def strOrEmptyCod (r : BobinaRow) : Str :=
  if r.codigoDeProducto = vnull then [] else pyStr r.codigoDeProducto

/-- Per-row effect of the bulk recode
`ProductionControlWidget.cambiar_calidad_obs` (src/ui/production.py, lines
452-464): set `calidad` and `obs` to the chosen values, and splice the
product code only when its string form has at least 8 characters. -/
def cambiar_calidad_obs_row (calidad_val obs_val : Str) (r : BobinaRow) : BobinaRow :=
  let codprod := strOrEmptyCod r
  let cod2 :=
    if 8 ≤ codprod.length then vtext (splice_calidad_obs codprod calidad_val obs_val)
    else r.codigoDeProducto
  { r with calidad := vtext calidad_val, obs := vtext obs_val, codigoDeProducto := cod2 }

/-- Stringify-or-empty with stripping of falsy values:
`str(x or '').strip()` as used on `alistamiento`, `codprod`, `calidad` and
`obs` in `update_empty_bobinas_fields`
(src/database/production_models.py, lines 600-603). -/
def orEmptyStripped (v : DbVal) : Str :=
  if pyFalsy v then [] else pyStrip (pyStr v)

/-- Row selection of `update_empty_bobinas_fields`
(src/database/production_models.py, lines 577-581): the pass fetches only
rows satisfying `codigoDeProducto IS NULL OR codigoDeProducto = ''`. -/
def selectEmptyCod (r : BobinaRow) : Prop :=
  r.codigoDeProducto = vnull ∨ r.codigoDeProducto = vtext []

instance (r : BobinaRow) : Decidable (selectEmptyCod r) := by
  unfold selectEmptyCod; infer_instance

/-- Per-row fill of `update_empty_bobinas_fields`
(src/database/production_models.py, lines 593-661): compose
`codigoDeProducto` when blank, overwrite `CantidadEnPrimeraUdM` from `peso`
when `peso` is not NULL, fill `lote` from `f"{of}/{sec}"` and `nroOT` from
`str(of)` when blank. -/
def update_empty_row (r : BobinaRow) : BobinaRow :=
  let alistamiento := orEmptyStripped r.alistamiento
  let codprod := orEmptyStripped r.codprod
  let calidad := orEmptyStripped r.calidad
  let obs := orEmptyStripped r.obs
  let gramaje_fmt := _format_gramaje r.gramaje
  let diametro_fmt := _format_diametro r.diametro
  let ancho_fmt := _format_ancho r.ancho
  let cod2 :=
    if is_empty r.codigoDeProducto then
      vtext (alistamiento ++ codprod ++ calidad ++ obs
        ++ gramaje_fmt ++ diametro_fmt ++ ancho_fmt)
    else r.codigoDeProducto
  let cant2 :=
    if r.peso ≠ vnull then vtext (format_peso_2dp r.peso) else r.cantidadEnPrimeraUdM
  let lote2 :=
    if is_empty r.lote ∧ r.of ≠ vnull ∧ r.sec ≠ vnull
    then vtext (pyStr r.of ++ '/' :: pyStr r.sec) else r.lote
  let nroOT2 :=
    if is_empty r.nroOT ∧ r.of ≠ vnull then vtext (pyStr r.of) else r.nroOT
  { r with codigoDeProducto := cod2, cantidadEnPrimeraUdM := cant2,
           lote := lote2, nroOT := nroOT2 }

/-- The loop body of `update_empty_bobinas_fields`: selected rows are
filled, unselected rows are not read at all. -/
def fillSelectedRow (r : BobinaRow) : BobinaRow :=
  if selectEmptyCod r then update_empty_row r else r

/-- Whole-table pass `ProductionData.update_empty_bobinas_fields`
(src/database/production_models.py, lines 460-673): it first runs
`update_quality_fields` (lines 572-574), then fills exactly the rows
selected by the empty-`codigoDeProducto` query. -/
def update_empty_bobinas_fields (db : List BobinaRow) : List BobinaRow :=
  (update_quality_fields db).map fillSelectedRow

/-- The table model's state: the in-memory row list (`data_rows`) owned by
`ProductionTableModel`, and the rows of the discovered `bobina` table. -/
structure ModelState where
  dataRows : List BobinaRow := []
  db : List BobinaRow := []
deriving DecidableEq

/-- SQLite equality `column = ?` between a stored value and a bound
parameter: NULL never matches; INTEGER and REAL compare numerically; TEXT
compares by content.  (Cross-affinity conversion between text and numbers is
not modelled; every theorem below binds parameters of the stored type.) -/
def dbValEq : DbVal → DbVal → Bool
  | vnull, _ => false
  | _, vnull => false
  | vint a, vint b => a = b
  | vreal a, vreal b => a.norm = b.norm
  | vint a, vreal b => b.norm = ⟨a, 0⟩
  | vreal a, vint b => a.norm = ⟨b, 0⟩
  | vtext s, vtext t => s = t
  | _, _ => false

/-- The WHERE clause `bobina_num = ? AND sec = ?` used by both update paths. -/
def rowKeyMatches (r : BobinaRow) (bob sec : DbVal) : Bool :=
  dbValEq r.bobina_num bob && dbValEq r.sec sec

/-- Database-side `ProductionData.update_row`
(src/database/production_models.py, lines 180-309) specialized to the SET
list the table model builds — `calidad`, `obs`, and the product-code column
when its new value is not None — keyed by `WHERE bobina_num = ? AND sec =
?`.  Returns the updated table and the affected row count
(`cursor.rowcount`); none of these columns is date-typed, so the date
formatting step is the identity here. -/
def db_update_row (db : List BobinaRow) (calidad obs : DbVal) (cod : Option DbVal)
    (bob sec : DbVal) : List BobinaRow × Nat :=
  (db.map (fun r =>
      if rowKeyMatches r bob sec then
        { r with calidad := calidad, obs := obs,
                 codigoDeProducto := match cod with
                   | some c => c
                   | none => r.codigoDeProducto }
      else r),
   db.countP (fun r => rowKeyMatches r bob sec))

/-- Model-side `ProductionTableModel.update_row`
(src/ui/production_models.py, lines 379-552) on a schema that has all the
columns: read the natural key from the current in-memory row, persist
`calidad`, `obs` and — when not None — the new product code, and mirror the
three fields into the in-memory row only when the database reported at
least one affected row. -/
def ui_update_row (st : ModelState) (row_index : Nat) (row_data : BobinaRow) :
    Bool × ModelState :=
  if h : row_index < st.dataRows.length then
    let current := st.dataRows.get ⟨row_index, h⟩
    let calidad := row_data.calidad
    let obs := row_data.obs
    let codprod := row_data.codigoDeProducto
    let codArg : Option DbVal := if codprod = vnull then none else some codprod
    let res := db_update_row st.db calidad obs codArg current.bobina_num current.sec
    if 0 < res.2 then
      (true, { dataRows := st.dataRows.set row_index
                 { current with calidad := calidad, obs := obs,
                                codigoDeProducto := codprod },
               db := res.1 })
    else (false, { st with db := res.1 })
  else (false, st)

/-- The scenario row of spec §8: `bobina_num "100"`, `sec "1"`,
`calidad "01"`, `obs "00"`, the 23-character composite code, `ancho 82.5`. -/
def c6row : BobinaRow :=
  { bobina_num := vtext "100".data, sec := vtext "1".data,
    calidad := vtext "01".data, obs := vtext "00".data,
    codigoDeProducto := vtext "AB010100012001200082500".data,
    ancho := vreal (decOf 825 1) }

/-- SQLite comparison of a stored key value against the bound text parameter
produced by `str(...)` in `ProductionTableModel.delete_row`: NULL never
matches; otherwise the stored value matches when its canonical rendering
equals the parameter (the effect of column affinity on the usual INTEGER /
TEXT key columns). -/
def keyMatchStr (stored : DbVal) (param : Str) : Bool :=
  match stored with
  | vnull => false
  | v => pyStr v = param

/-- Database-side `ProductionData.delete_row`
(src/database/production_models.py, lines 311-342) on the natural-key
branch: `DELETE FROM {table} WHERE bobina_num = ? AND sec = ?`; returns the
remaining rows and `cursor.rowcount`. -/
def db_delete_row (db : List BobinaRow) (bobina sec : Str) : List BobinaRow × Nat :=
  (db.filter (fun r => !(keyMatchStr r.bobina_num bobina && keyMatchStr r.sec sec)),
   db.countP (fun r => keyMatchStr r.bobina_num bobina && keyMatchStr r.sec sec))

/-- Model-side `ProductionTableModel.delete_row`
(src/ui/production_models.py, lines 555-610): refuse falsy key values
before touching the database, delete by `str(bobina_num)`, `str(sec)`, and
drop the in-memory row only when the database reported at least one
affected row. -/
def ui_delete_row (st : ModelState) (row_index : Nat) : Bool × ModelState :=
  if h : row_index < st.dataRows.length then
    let row := st.dataRows.get ⟨row_index, h⟩
    if pyFalsy row.bobina_num ∨ pyFalsy row.sec then (false, st)
    else
      let res := db_delete_row st.db (pyStr row.bobina_num) (pyStr row.sec)
      if 0 < res.2 then
        (true, { dataRows := st.dataRows.eraseIdx row_index, db := res.1 })
      else (false, { st with db := res.1 })
  else (false, st)

/-- Date formatter `ProductionData._format_date`
(src/database/production_models.py, lines 368-412) as it actually executes
on database values: a falsy value returns None; the string branch reaches
`re.match` (line 389), but the module never imports `re`, so a `NameError`
is raised and swallowed by the blanket `except` handler (lines 410-412),
which returns the original value unchanged; a numeric value falls through
to `str(date_value)`. -/
def _format_date (date_value : DbVal) : Option DbVal :=
  if pyFalsy date_value then none
  else
    match date_value with
    | vnull => none
    | vtext s => some (vtext s)
    | vint n => some (vtext (intStr n))
    | vreal d => some (vtext (pyStr (vreal d)))

/-- Lowercasing used by the column filters (`col.lower()`). -/
def strLower (s : Str) : Str := s.map Char.toLower

/-- The fixed display order `desired_order` of `ProductionTableModel.load_data`
(src/ui/production_models.py, lines 86-87). -/
def desired_order : List Str :=
  ["of".data, "bobina_num".data, "sec".data, "ancho".data, "peso".data,
   "gramaje".data, "diametro".data, "fecha".data, "turno".data, "codprod".data,
   "descprod".data, "alistamiento".data, "calidad".data, "obs".data,
   "observaciones".data, "created_at".data]

/-- Declared column order of the modelled `bobina` table: the schema every
row-level embedding here assumes, with all core columns present and none of
the optional date columns. -/
def schema_columns : List Str :=
  ["bobina_num".data, "sec".data, "of".data, "alistamiento".data,
   "codprod".data, "calidad".data, "obs".data, "producto".data,
   "gramaje".data, "diametro".data, "ancho".data, "peso".data,
   "lote".data, "nroOT".data, "codigoDeProducto".data,
   "cantidadEnPrimeraUdM".data]

/-- The UI column order produced by `load_data`
(src/ui/production_models.py, lines 89-129): first the `desired_order`
columns that exist in the schema, then the remaining schema columns that
are not in `desired_order` (the uppercase `"OF"` branch and the `"id"`
exclusion do not fire on this schema). -/
def column_names : List Str :=
  (desired_order.filter (fun c => schema_columns.contains c))
    ++ (schema_columns.filter (fun c =>
          !(desired_order.contains c) && !(c == "OF".data)
            && !(strLower c == "id".data)))

/-- Value of a named column of a row. -/
def getColumn (r : BobinaRow) (c : Str) : DbVal :=
  if c = "bobina_num".data then r.bobina_num
  else if c = "sec".data then r.sec
  else if c = "of".data then r.of
  else if c = "alistamiento".data then r.alistamiento
  else if c = "codprod".data then r.codprod
  else if c = "calidad".data then r.calidad
  else if c = "obs".data then r.obs
  else if c = "producto".data then r.producto
  else if c = "gramaje".data then r.gramaje
  else if c = "diametro".data then r.diametro
  else if c = "ancho".data then r.ancho
  else if c = "peso".data then r.peso
  else if c = "lote".data then r.lote
  else if c = "nroOT".data then r.nroOT
  else if c = "codigoDeProducto".data then r.codigoDeProducto
  else if c = "cantidadEnPrimeraUdM".data then r.cantidadEnPrimeraUdM
  else vnull

/-- Update of a named column of a row. -/
def setColumn (r : BobinaRow) (c : Str) (v : DbVal) : BobinaRow :=
  if c = "bobina_num".data then { r with bobina_num := v }
  else if c = "sec".data then { r with sec := v }
  else if c = "of".data then { r with of := v }
  else if c = "alistamiento".data then { r with alistamiento := v }
  else if c = "codprod".data then { r with codprod := v }
  else if c = "calidad".data then { r with calidad := v }
  else if c = "obs".data then { r with obs := v }
  else if c = "producto".data then { r with producto := v }
  else if c = "gramaje".data then { r with gramaje := v }
  else if c = "diametro".data then { r with diametro := v }
  else if c = "ancho".data then { r with ancho := v }
  else if c = "peso".data then { r with peso := v }
  else if c = "lote".data then { r with lote := v }
  else if c = "nroOT".data then { r with nroOT := v }
  else if c = "codigoDeProducto".data then { r with codigoDeProducto := v }
  else if c = "cantidadEnPrimeraUdM".data then { r with cantidadEnPrimeraUdM := v }
  else r

/-- The in-memory row built by `load_data`: the reordered column values plus
the appended presentation-only empty cell
(src/ui/production_models.py, line 133). -/
def mem_row_cells (r : BobinaRow) : List DbVal :=
  column_names.map (getColumn r) ++ [vtext []]

/-- The persisted column list of `setData`
(src/ui/production_models.py, line 301): every UI column whose lowercase
name is not `obs` — this drops the real `obs` database column. -/
def db_columns_setData : List Str :=
  column_names.filter (fun c => !(strLower c == "obs".data))

/-- The positional value slice `setData` persists
(src/ui/production_models.py, line 302): the first `len(db_columns)` cells
of the row, still in full `column_names` order — one position out of step
with `db_columns` for every column after `obs`. -/
def db_row_data_setData (r : BobinaRow) : List DbVal :=
  (mem_row_cells r).take db_columns_setData.length

/-- Application of a SET list of (column name, value) pairs to a row, as the
parameterized `UPDATE ... SET c1 = ?, c2 = ?, ...` statement does. -/
def applySet : BobinaRow → List (Str × DbVal) → BobinaRow
  | r, [] => r
  | r, (c, v) :: rest => applySet (setColumn r c v) rest

/-- Database-side `ProductionData.update_row`
(src/database/production_models.py, lines 180-309) with a general SET list,
as called from `setData`: on this schema every referenced column exists and
none is date-typed, so the validation and date-formatting steps are the
identity; rows matching `WHERE bobina_num = ? AND sec = ?` receive the
zipped column/value pairs, and the affected count is returned. -/
def db_update_set (db : List BobinaRow) (cols : List Str) (vals : List DbVal)
    (bob sec : DbVal) : List BobinaRow × Nat :=
  (db.map (fun x => if rowKeyMatches x bob sec then applySet x (cols.zip vals) else x),
   db.countP (fun x => rowKeyMatches x bob sec))

/-- The in-memory cell edit of `setData`
(src/ui/production_models.py, line 298): writing cell `col_index` sets the
field named `column_names[col_index]`; the appended final cell holds no
schema column. -/
def setData_edited_row (r : BobinaRow) (col_index : Nat) (value : DbVal) : BobinaRow :=
  match column_names.get? col_index with
  | some c => setColumn r c value
  | none => r

/-- Single-cell edit path `ProductionTableModel.setData`
(src/ui/production_models.py, lines 280-327) for `EditRole` on a valid
index: write the cell in memory, then persist the positional slice
`row[:len(db_columns)]` against the obs-less column list — misaligned for
every column after `obs` — keyed by the edited row's `bobina_num` and
`sec`; the method returns True regardless of the database result. -/
def setData (st : ModelState) (row_index col_index : Nat) (value : DbVal) :
    Bool × ModelState :=
  if h : row_index < st.dataRows.length then
    let r2 := setData_edited_row (st.dataRows.get ⟨row_index, h⟩) col_index value
    let res := db_update_set st.db db_columns_setData (db_row_data_setData r2)
                 r2.bobina_num r2.sec
    (true, { dataRows := st.dataRows.set row_index r2, db := res.1 })
  else (false, st)

/-- A row for the single-cell edit scenario: 23-character composite code and
`nroOT = "999"`. -/
def c3row : BobinaRow :=
  { bobina_num := vtext "100".data, sec := vtext "1".data,
    calidad := vtext "01".data, obs := vtext "00".data,
    nroOT := vtext "999".data,
    codigoDeProducto := vtext "AB010100012001200082500".data }

/-- One-row model state for the single-cell edit scenario. -/
def c3st : ModelState := { dataRows := [c3row], db := [c3row] }

example : _format_ancho (vreal (decOf 825 1)) = "08250".data := by decide
example : _format_gramaje (vreal (decOf 79 1)) = "007".data := by decide
example : _format_diametro (vreal (decOf 1234 2)) = "0123".data := by decide
example : format_peso_2dp (vreal (decOf 1255 1)) = "125,50".data := by decide
example : _format_ancho (vtext "82,5".data) = "08250".data := by decide
example : _format_gramaje (vtext "abc".data) = "0000".data := by decide
example : _format_ancho (vreal (decOf (-31) 1)) = "-0031".data := by decide

theorem lastN_zfill_of_len_two (s : Str) (h : s.length = 2) :
    lastN 2 (zfill 2 s) = s := by
  simp [zfill, lastN, h]

/-- C1: for every existing code `C` of length at least 8 and every 2-character
`quality` and `obs`, the bulk-recode splice produces exactly
`C[:4] + quality + obs + C[8:]`, preserving the characters before index 4 and
from index 8 onward verbatim. -/
theorem C1_splice_invariant (c q o : Str) (hc : 8 ≤ c.length)
    (hq : q.length = 2) (ho : o.length = 2) :
    splice_calidad_obs c q o = c.take 4 ++ q ++ o ++ c.drop 8 := by
  simp [splice_calidad_obs, lastN_zfill_of_len_two q hq, lastN_zfill_of_len_two o ho]

/-- C1 witness: the splice invariant instantiated at codes of the boundary
lengths 8, 9 and 20. -/
theorem C1_splice_invariant_witness :
    (splice_calidad_obs "AB010099".data "05".data "02".data
      = "AB010099".data.take 4 ++ "05".data ++ "02".data ++ "AB010099".data.drop 8)
    ∧ (splice_calidad_obs "AB0100991".data "05".data "02".data
      = "AB0100991".data.take 4 ++ "05".data ++ "02".data ++ "AB0100991".data.drop 8)
    ∧ (splice_calidad_obs "AB010099123456789012".data "05".data "02".data
      = "AB010099123456789012".data.take 4 ++ "05".data ++ "02".data
        ++ "AB010099123456789012".data.drop 8) :=
  ⟨C1_splice_invariant _ _ _ (by decide) (by decide) (by decide),
   C1_splice_invariant _ _ _ (by decide) (by decide) (by decide),
   C1_splice_invariant _ _ _ (by decide) (by decide) (by decide)⟩

/-- C2: for every product-type code value (NULL included), the deriver never
fails and returns exactly the fixed table's pair for the zero-left-stripped
normalization of the input. -/
theorem C2_deriver_matches_table (v : DbVal) :
    derive_quality_obs v = spec_quality_table (normalizeCodprod v) := by
  unfold derive_quality_obs
  generalize normalizeCodprod v = n
  unfold qualityTableCode spec_quality_table
  split_ifs <;> simp_all

/-- C4: the bulk quality pass is claimed to leave non-blank `calidad`/`obs`
pairs untouched, but `update_quality_fields` overwrites them: on a row with
`codprod = "1"`, `calidad = "05"`, `obs = "02"` (both non-blank), the pass
rewrites `calidad` to `"01"` and `obs` to `"00"`, although the source's own
comment says the fields must not be overwritten when already set. -/
theorem C4_quality_pass_overwrites_nonblank :
    (update_quality_row
        { codprod := vtext "1".data, calidad := vtext "05".data,
          obs := vtext "02".data }).calidad = vtext "01".data
    ∧ (update_quality_row
        { codprod := vtext "1".data, calidad := vtext "05".data,
          obs := vtext "02".data }).obs = vtext "00".data
    ∧ is_empty (vtext "05".data) = false
    ∧ is_empty (vtext "02".data) = false
    ∧ update_quality_fields
        [{ codprod := vtext "1".data, calidad := vtext "05".data,
           obs := vtext "02".data }]
      = [update_quality_row
          { codprod := vtext "1".data, calidad := vtext "05".data,
            obs := vtext "02".data }] := by decide

theorem column_names_eval : column_names
    = ["of".data, "bobina_num".data, "sec".data, "ancho".data, "peso".data,
       "gramaje".data, "diametro".data, "codprod".data, "alistamiento".data,
       "calidad".data, "obs".data, "producto".data, "lote".data, "nroOT".data,
       "codigoDeProducto".data, "cantidadEnPrimeraUdM".data] := by decide

theorem db_columns_setData_eval : db_columns_setData
    = ["of".data, "bobina_num".data, "sec".data, "ancho".data, "peso".data,
       "gramaje".data, "diametro".data, "codprod".data, "alistamiento".data,
       "calidad".data, "producto".data, "lote".data, "nroOT".data,
       "codigoDeProducto".data, "cantidadEnPrimeraUdM".data] := by decide

theorem getColumn_of (r : BobinaRow) : getColumn r ['o', 'f'] = r.of := rfl

theorem getColumn_bobina_num (r : BobinaRow) :
    getColumn r ['b', 'o', 'b', 'i', 'n', 'a', '_', 'n', 'u', 'm'] = r.bobina_num := rfl

theorem getColumn_sec (r : BobinaRow) : getColumn r ['s', 'e', 'c'] = r.sec := rfl

theorem getColumn_ancho (r : BobinaRow) : getColumn r ['a', 'n', 'c', 'h', 'o'] = r.ancho := rfl

theorem getColumn_peso (r : BobinaRow) : getColumn r ['p', 'e', 's', 'o'] = r.peso := rfl

theorem getColumn_gramaje (r : BobinaRow) :
    getColumn r ['g', 'r', 'a', 'm', 'a', 'j', 'e'] = r.gramaje := rfl

theorem getColumn_diametro (r : BobinaRow) :
    getColumn r ['d', 'i', 'a', 'm', 'e', 't', 'r', 'o'] = r.diametro := rfl

theorem getColumn_codprod (r : BobinaRow) :
    getColumn r ['c', 'o', 'd', 'p', 'r', 'o', 'd'] = r.codprod := rfl

theorem getColumn_alistamiento (r : BobinaRow) :
    getColumn r ['a', 'l', 'i', 's', 't', 'a', 'm', 'i', 'e', 'n', 't', 'o'] = r.alistamiento := rfl

theorem getColumn_calidad (r : BobinaRow) :
    getColumn r ['c', 'a', 'l', 'i', 'd', 'a', 'd'] = r.calidad := rfl

theorem getColumn_obs (r : BobinaRow) : getColumn r ['o', 'b', 's'] = r.obs := rfl

theorem getColumn_producto (r : BobinaRow) :
    getColumn r ['p', 'r', 'o', 'd', 'u', 'c', 't', 'o'] = r.producto := rfl

theorem getColumn_lote (r : BobinaRow) : getColumn r ['l', 'o', 't', 'e'] = r.lote := rfl

theorem getColumn_nroOT (r : BobinaRow) : getColumn r ['n', 'r', 'o', 'O', 'T'] = r.nroOT := rfl

theorem getColumn_cod (r : BobinaRow) :
    getColumn r ['c', 'o', 'd', 'i', 'g', 'o', 'D', 'e', 'P', 'r', 'o', 'd', 'u', 'c', 't', 'o'] = r.codigoDeProducto := rfl

theorem getColumn_cantidad (r : BobinaRow) :
    getColumn r ['c', 'a', 'n', 't', 'i', 'd', 'a', 'd', 'E', 'n', 'P', 'r', 'i', 'm', 'e', 'r', 'a', 'U', 'd', 'M'] = r.cantidadEnPrimeraUdM := rfl

theorem setColumn_of (r : BobinaRow) (v : DbVal) :
    setColumn r ['o', 'f'] v = { r with of := v } := rfl

theorem setColumn_bobina_num (r : BobinaRow) (v : DbVal) :
    setColumn r ['b', 'o', 'b', 'i', 'n', 'a', '_', 'n', 'u', 'm'] v = { r with bobina_num := v } := rfl

theorem setColumn_sec (r : BobinaRow) (v : DbVal) :
    setColumn r ['s', 'e', 'c'] v = { r with sec := v } := rfl

theorem setColumn_ancho (r : BobinaRow) (v : DbVal) :
    setColumn r ['a', 'n', 'c', 'h', 'o'] v = { r with ancho := v } := rfl

theorem setColumn_peso (r : BobinaRow) (v : DbVal) :
    setColumn r ['p', 'e', 's', 'o'] v = { r with peso := v } := rfl

theorem setColumn_gramaje (r : BobinaRow) (v : DbVal) :
    setColumn r ['g', 'r', 'a', 'm', 'a', 'j', 'e'] v = { r with gramaje := v } := rfl

theorem setColumn_diametro (r : BobinaRow) (v : DbVal) :
    setColumn r ['d', 'i', 'a', 'm', 'e', 't', 'r', 'o'] v = { r with diametro := v } := rfl

theorem setColumn_codprod (r : BobinaRow) (v : DbVal) :
    setColumn r ['c', 'o', 'd', 'p', 'r', 'o', 'd'] v = { r with codprod := v } := rfl

theorem setColumn_alistamiento (r : BobinaRow) (v : DbVal) :
    setColumn r ['a', 'l', 'i', 's', 't', 'a', 'm', 'i', 'e', 'n', 't', 'o'] v = { r with alistamiento := v } := rfl

theorem setColumn_calidad (r : BobinaRow) (v : DbVal) :
    setColumn r ['c', 'a', 'l', 'i', 'd', 'a', 'd'] v = { r with calidad := v } := rfl

theorem setColumn_producto (r : BobinaRow) (v : DbVal) :
    setColumn r ['p', 'r', 'o', 'd', 'u', 'c', 't', 'o'] v = { r with producto := v } := rfl

theorem setColumn_lote (r : BobinaRow) (v : DbVal) :
    setColumn r ['l', 'o', 't', 'e'] v = { r with lote := v } := rfl

theorem setColumn_nroOT (r : BobinaRow) (v : DbVal) :
    setColumn r ['n', 'r', 'o', 'O', 'T'] v = { r with nroOT := v } := rfl

theorem setColumn_cod (r : BobinaRow) (v : DbVal) :
    setColumn r ['c', 'o', 'd', 'i', 'g', 'o', 'D', 'e', 'P', 'r', 'o', 'd', 'u', 'c', 't', 'o'] v = { r with codigoDeProducto := v } := rfl

theorem setColumn_cantidad (r : BobinaRow) (v : DbVal) :
    setColumn r ['c', 'a', 'n', 't', 'i', 'd', 'a', 'd', 'E', 'n', 'P', 'r', 'i', 'm', 'e', 'r', 'a', 'U', 'd', 'M'] v
      = { r with cantidadEnPrimeraUdM := v } := rfl

theorem mem_row_cells_eval (r : BobinaRow) :
    mem_row_cells r
      = [r.of, r.bobina_num, r.sec, r.ancho, r.peso, r.gramaje, r.diametro,
         r.codprod, r.alistamiento, r.calidad, r.obs, r.producto, r.lote,
         r.nroOT, r.codigoDeProducto, r.cantidadEnPrimeraUdM, vtext []] := by
  rw [mem_row_cells, column_names_eval]
  simp only [List.map_cons, List.map_nil, getColumn_of, getColumn_bobina_num,
    getColumn_sec, getColumn_ancho, getColumn_peso, getColumn_gramaje,
    getColumn_diametro, getColumn_codprod, getColumn_alistamiento,
    getColumn_calidad, getColumn_obs, getColumn_producto, getColumn_lote,
    getColumn_nroOT, getColumn_cod, getColumn_cantidad, List.cons_append,
    List.nil_append]

theorem db_row_data_setData_eval (r : BobinaRow) :
    db_row_data_setData r
      = [r.of, r.bobina_num, r.sec, r.ancho, r.peso, r.gramaje, r.diametro,
         r.codprod, r.alistamiento, r.calidad, r.obs, r.producto, r.lote,
         r.nroOT, r.codigoDeProducto] := by
  rw [db_row_data_setData, mem_row_cells_eval, db_columns_setData_eval]
  rfl

/-- Net effect of `setData`'s persisted SET list on a matched stored row:
because `obs` is dropped from the column list but not from the positional
slice, every column after `obs` receives its left neighbour's value —
`producto` gets the in-memory `obs`, `lote` gets `producto`, `nroOT` gets
`lote`, `codigoDeProducto` gets `nroOT`, and `CantidadEnPrimeraUdM` gets
`codigoDeProducto`.  The real `obs` column is never SET. -/
theorem setData_applySet_net (x r : BobinaRow) :
    applySet x (db_columns_setData.zip (db_row_data_setData r))
      = { x with of := r.of, bobina_num := r.bobina_num, sec := r.sec,
                 ancho := r.ancho, peso := r.peso, gramaje := r.gramaje,
                 diametro := r.diametro, codprod := r.codprod,
                 alistamiento := r.alistamiento, calidad := r.calidad,
                 producto := r.obs, lote := r.producto, nroOT := r.lote,
                 codigoDeProducto := r.nroOT,
                 cantidadEnPrimeraUdM := r.codigoDeProducto } := by
  rw [db_columns_setData_eval, db_row_data_setData_eval]
  simp only [List.zip_cons_cons, List.zip_nil_left, applySet, setColumn_of,
    setColumn_bobina_num, setColumn_sec, setColumn_ancho, setColumn_peso,
    setColumn_gramaje, setColumn_diametro, setColumn_codprod,
    setColumn_alistamiento, setColumn_calidad, setColumn_producto,
    setColumn_lote, setColumn_nroOT, setColumn_cod, setColumn_cantidad]

/-- C3 counterexample: the composite code is left stale or clobbered, never
recomputed, outside the long-code bulk-recode splice.  (a) On a row whose
existing code `"ABC"` is shorter than 8 characters, the bulk recode changes
`calidad` and `obs` but leaves `codigoDeProducto` exactly as it was.
(b) A single-cell edit of `calidad` (column 9) through `setData`, on a row
whose code has 23 characters, does not recompute the stored code either:
the misaligned slice overwrites it with the in-memory `nroOT` value
`"999"`, which is neither the original code nor the quality/obs splice.
(c) The same for an `ancho` edit (column 3): `ancho` changes and the stored
code again becomes `"999"` rather than any recomposition. -/
theorem C3_code_stale_or_clobbered :
    (cambiar_calidad_obs_row "05".data "02".data
        { calidad := vtext "01".data, obs := vtext "00".data,
          codigoDeProducto := vtext "ABC".data }).calidad = vtext "05".data
    ∧ (cambiar_calidad_obs_row "05".data "02".data
        { calidad := vtext "01".data, obs := vtext "00".data,
          codigoDeProducto := vtext "ABC".data }).obs = vtext "02".data
    ∧ (cambiar_calidad_obs_row "05".data "02".data
        { calidad := vtext "01".data, obs := vtext "00".data,
          codigoDeProducto := vtext "ABC".data }).codigoDeProducto
      = vtext "ABC".data
    ∧ ((setData c3st 0 9 (vtext "05".data)).2).db.map
        (fun x => (x.calidad, x.codigoDeProducto))
      = [(vtext "05".data, vtext "999".data)]
    ∧ vtext "999".data ≠ vtext "AB010100012001200082500".data
    ∧ vtext "999".data
      ≠ vtext (splice_calidad_obs "AB010100012001200082500".data "05".data "00".data)
    ∧ ((setData c3st 0 3 (vreal (decOf 90 0))).2).db.map
        (fun x => (x.ancho, x.codigoDeProducto))
      = [(vreal (decOf 90 0), vtext "999".data)] := by decide

/-- C3 amended: among the operations that change a record's `calidad` or
`obs`, only the bulk recode recomputes the stored `codigoDeProducto`, and
only for records whose existing code has at least 8 characters (by the
quality/observation splice); shorter codes are left unchanged by it.  The
single-cell edit path `setData` never recomputes the composite code after
`calidad`, `obs`, `ancho`, `gramaje` or `diametro` edits: whatever cell is
edited, every stored row matching the key gets its `codigoDeProducto`
overwritten with the edited in-memory row's `nroOT` value — the effect of
the row slice misaligned by the dropped `obs` column — and every
non-matching row keeps its code. -/
theorem C3_amended_splice_only_in_bulk_recode
    (q o : Str) (r : BobinaRow) (st : ModelState)
    (row_index col_index : Nat) (value : DbVal) (j : Nat) :
    (8 ≤ (strOrEmptyCod r).length →
      (cambiar_calidad_obs_row q o r).codigoDeProducto
        = vtext (splice_calidad_obs (strOrEmptyCod r) q o))
    ∧ ((strOrEmptyCod r).length < 8 →
      (cambiar_calidad_obs_row q o r).codigoDeProducto = r.codigoDeProducto)
    ∧ (cambiar_calidad_obs_row q o r).calidad = vtext q
    ∧ (cambiar_calidad_obs_row q o r).obs = vtext o
    ∧ (∀ (h : row_index < st.dataRows.length),
        (((setData st row_index col_index value).2).db.get? j).map
            (fun x => x.codigoDeProducto)
          = (st.db.get? j).map (fun x =>
              if rowKeyMatches x
                  (setData_edited_row (st.dataRows.get ⟨row_index, h⟩)
                    col_index value).bobina_num
                  (setData_edited_row (st.dataRows.get ⟨row_index, h⟩)
                    col_index value).sec
              then (setData_edited_row (st.dataRows.get ⟨row_index, h⟩)
                    col_index value).nroOT
              else x.codigoDeProducto)) := by
  refine ⟨fun h => ?_, fun h => ?_, rfl, rfl, fun h => ?_⟩
  · simp only [cambiar_calidad_obs_row]
    rw [if_pos h]
  · simp only [cambiar_calidad_obs_row]
    rw [if_neg (by omega : ¬ 8 ≤ (strOrEmptyCod r).length)]
  · unfold setData
    rw [dif_pos h]
    dsimp only
    simp only [db_update_set, List.get?_eq_getElem?, List.getElem?_map]
    cases st.db[j]? with
    | none => rfl
    | some x =>
        simp only [Option.map_some']
        split
        · rw [setData_applySet_net]
        · rfl

/-- C3 amended witness: the splice fires on an 8-character code, a
3-character code is kept, and the single-cell `calidad` edit on the
scenario state stores `"999"` — the in-memory `nroOT` — as the composite
code. -/
theorem C3_amended_splice_witness :
    (cambiar_calidad_obs_row "05".data "02".data
        { codigoDeProducto := vtext "AB010099".data }).codigoDeProducto
      = vtext (splice_calidad_obs "AB010099".data "05".data "02".data)
    ∧ (cambiar_calidad_obs_row "05".data "02".data
        { codigoDeProducto := vtext "ABC".data }).codigoDeProducto
      = vtext "ABC".data
    ∧ (((setData c3st 0 9 (vtext "05".data)).2).db.get? 0).map
        (fun x => x.codigoDeProducto) = some (vtext "999".data) :=
  ⟨(C3_amended_splice_only_in_bulk_recode "05".data "02".data
      { codigoDeProducto := vtext "AB010099".data } c3st 0 9 (vtext "05".data) 0).1
      (by decide),
   (C3_amended_splice_only_in_bulk_recode "05".data "02".data
      { codigoDeProducto := vtext "ABC".data } c3st 0 9 (vtext "05".data) 0).2.1
      (by decide),
   ((C3_amended_splice_only_in_bulk_recode "05".data "02".data
      { codigoDeProducto := vtext "ABC".data } c3st 0 9 (vtext "05".data) 0).2.2.2.2
      (by decide)).trans (by decide)⟩

theorem update_quality_row_cod (r : BobinaRow) :
    (update_quality_row r).codigoDeProducto = r.codigoDeProducto := rfl

theorem update_quality_row_lote (r : BobinaRow) :
    (update_quality_row r).lote = r.lote := rfl

theorem update_quality_row_nroOT (r : BobinaRow) :
    (update_quality_row r).nroOT = r.nroOT := rfl

theorem update_quality_row_of (r : BobinaRow) :
    (update_quality_row r).of = r.of := rfl

theorem update_quality_row_sec (r : BobinaRow) :
    (update_quality_row r).sec = r.sec := rfl

theorem selectEmptyCod_update_quality_row (r : BobinaRow) :
    selectEmptyCod (update_quality_row r) = selectEmptyCod r := rfl

/-- C5 counterexample: a row whose `codigoDeProducto` is already non-blank is
not selected by the normalization pass at all, so its blank `lote` stays
blank even though `of` and `sec` are present — against the claim that such
rows still get `lote` filled and that only rows with `lote`, `nroOT` and
`codigoDeProducto` all non-blank (and `peso` NULL) are skipped. -/
theorem C5_nonblank_code_row_not_filled :
    (update_empty_bobinas_fields
        [{ of := vint 123, sec := vint 1, codigoDeProducto := vtext "X".data }]).map
      (fun r => r.lote) = [vnull]
    ∧ is_empty (vnull : DbVal) = true
    ∧ (vnull : DbVal) ≠ vtext "123/1".data := by decide

theorem fillSelectedRow_quality_spec (r : BobinaRow) :
    (selectEmptyCod r →
      (is_empty r.lote = true ∧ r.of ≠ vnull ∧ r.sec ≠ vnull →
        (fillSelectedRow (update_quality_row r)).lote
          = vtext (pyStr r.of ++ '/' :: pyStr r.sec))
      ∧ (is_empty r.nroOT = true ∧ r.of ≠ vnull →
        (fillSelectedRow (update_quality_row r)).nroOT = vtext (pyStr r.of)))
    ∧ (¬ selectEmptyCod r →
      (fillSelectedRow (update_quality_row r)).lote = r.lote
      ∧ (fillSelectedRow (update_quality_row r)).nroOT = r.nroOT) := by
  have hsel2 : selectEmptyCod (update_quality_row r) ↔ selectEmptyCod r := Iff.rfl
  constructor
  · intro hsel
    have hpos : fillSelectedRow (update_quality_row r)
        = update_empty_row (update_quality_row r) := by
      unfold fillSelectedRow
      rw [if_pos (hsel2.mpr hsel)]
    rw [hpos]
    constructor
    · intro ⟨h1, h2, h3⟩
      show (update_empty_row (update_quality_row r)).lote = _
      simp only [update_empty_row, update_quality_row_lote, update_quality_row_of,
        update_quality_row_sec]
      rw [if_pos ⟨h1, h2, h3⟩]
    · intro ⟨h1, h2⟩
      simp only [update_empty_row, update_quality_row_nroOT, update_quality_row_of]
      rw [if_pos ⟨h1, h2⟩]
  · intro hsel
    have hneg : fillSelectedRow (update_quality_row r) = update_quality_row r := by
      unfold fillSelectedRow
      rw [if_neg (fun hx => hsel (hsel2.mp hx))]
    rw [hneg]
    exact ⟨update_quality_row_lote r, update_quality_row_nroOT r⟩

/-- C5 amended: the normalization pass processes exactly the rows whose
`codigoDeProducto` is NULL or the empty string.  Among those, a row with
blank `lote` and non-NULL `of`, `sec` gets `lote = f"{of}/{sec}"`, and a row
with blank `nroOT` and non-NULL `of` gets `nroOT = str(of)`; a row with a
non-blank `codigoDeProducto` keeps `lote` and `nroOT` unchanged regardless
of its other fields. -/
theorem C5_amended_fill_only_selected_rows (db : List BobinaRow) (i : Nat)
    (hi : i < db.length) (hi2 : i < (update_empty_bobinas_fields db).length) :
    (selectEmptyCod (db.get ⟨i, hi⟩) →
      (is_empty (db.get ⟨i, hi⟩).lote = true ∧ (db.get ⟨i, hi⟩).of ≠ vnull
          ∧ (db.get ⟨i, hi⟩).sec ≠ vnull →
        ((update_empty_bobinas_fields db).get ⟨i, hi2⟩).lote
          = vtext (pyStr (db.get ⟨i, hi⟩).of ++ '/' :: pyStr (db.get ⟨i, hi⟩).sec))
      ∧ (is_empty (db.get ⟨i, hi⟩).nroOT = true ∧ (db.get ⟨i, hi⟩).of ≠ vnull →
        ((update_empty_bobinas_fields db).get ⟨i, hi2⟩).nroOT
          = vtext (pyStr (db.get ⟨i, hi⟩).of)))
    ∧ (¬ selectEmptyCod (db.get ⟨i, hi⟩) →
      ((update_empty_bobinas_fields db).get ⟨i, hi2⟩).lote = (db.get ⟨i, hi⟩).lote
      ∧ ((update_empty_bobinas_fields db).get ⟨i, hi2⟩).nroOT
        = (db.get ⟨i, hi⟩).nroOT) := by
  have hget : (update_empty_bobinas_fields db).get ⟨i, hi2⟩
      = fillSelectedRow (update_quality_row (db.get ⟨i, hi⟩)) := by
    simp [update_empty_bobinas_fields, update_quality_fields,
      List.get_eq_getElem, List.getElem_map]
  rw [hget]
  exact fillSelectedRow_quality_spec (db.get ⟨i, hi⟩)

/-- C5 amended witness: a one-row table whose row has empty
`codigoDeProducto`, blank `lote` and `nroOT`, and `of = 123`, `sec = 1`,
comes out of the pass with `lote = "123/1"` and `nroOT = "123"`. -/
theorem C5_amended_witness :
    ((update_empty_bobinas_fields [{ of := vint 123, sec := vint 1 }]).get
        ⟨0, by decide⟩).lote = vtext "123/1".data
    ∧ ((update_empty_bobinas_fields [{ of := vint 123, sec := vint 1 }]).get
        ⟨0, by decide⟩).nroOT = vtext "123".data := by
  have h := C5_amended_fill_only_selected_rows
    [{ of := vint 123, sec := vint 1 }] 0 (by decide) (by decide)
  refine ⟨((h.1 (by decide)).1 (by decide)).trans (by decide),
    ((h.1 (by decide)).2 (by decide)).trans (by decide)⟩

/-- C6 counterexample: the recode of the scenario row yields the 23-character
splice `"AB010502012001200082500"`, not the 24-character string
`"AB01" + "05" + "02" + "0012001200082500"` the claim writes: the claimed
suffix `"0012001200082500"` is not `C[8:]` of the scenario's code. -/
theorem C6_claimed_string_is_not_the_splice :
    (cambiar_calidad_obs_row "05".data "02".data c6row).codigoDeProducto
      = vtext "AB010502012001200082500".data
    ∧ vtext "AB010502012001200082500".data
      ≠ vtext ("AB01".data ++ "05".data ++ "02".data ++ "0012001200082500".data)
    ∧ "AB010100012001200082500".data.drop 8 ≠ "0012001200082500".data := by decide

/-- C6 amended: applying the bulk recode with target `("05","02")` to the
scenario row and persisting it through the table model leaves the stored row
with `calidad = "05"`, `obs = "02"` and
`codigoDeProducto = "AB01" + "05" + "02" + "012001200082500"`
(prefix and suffix preserved). -/
theorem C6_amended_scenario :
    (ui_update_row { dataRows := [c6row], db := [c6row] } 0
        (cambiar_calidad_obs_row "05".data "02".data c6row)).1 = true
    ∧ ((ui_update_row { dataRows := [c6row], db := [c6row] } 0
        (cambiar_calidad_obs_row "05".data "02".data c6row)).2).db.map
        (fun r => (r.calidad, r.obs, r.codigoDeProducto))
      = [(vtext "05".data, vtext "02".data,
          vtext ("AB01".data ++ "05".data ++ "02".data ++ "012001200082500".data))] := by
  decide

theorem ui_update_row_db_eq (st : ModelState) (row_index : Nat)
    (row_data : BobinaRow) :
    ((ui_update_row st row_index row_data).2).db
      = if h : row_index < st.dataRows.length then
          (db_update_row st.db row_data.calidad row_data.obs
            (if row_data.codigoDeProducto = vnull then none
             else some row_data.codigoDeProducto)
            (st.dataRows.get ⟨row_index, h⟩).bobina_num
            (st.dataRows.get ⟨row_index, h⟩).sec).1
        else st.db := by
  unfold ui_update_row
  split
  · dsimp only
    split <;> split <;> rfl
  · rfl

/-- C9: the single-row update path persists at most `calidad`, `obs` and the
product-code column: for every position of the stored table and every other
column, the value after `ProductionTableModel.update_row` equals the value
before it, whatever replacement row was supplied. -/
theorem C9_ui_update_row_frame (st : ModelState) (row_index : Nat)
    (row_data : BobinaRow) (j : Nat) :
    ((((ui_update_row st row_index row_data).2).db.get? j).map
        (fun r => (r.bobina_num, r.sec, r.of, r.alistamiento, r.codprod,
          r.producto, r.gramaje, r.diametro, r.ancho, r.peso, r.lote,
          r.nroOT, r.cantidadEnPrimeraUdM)))
      = ((st.db.get? j).map
        (fun r => (r.bobina_num, r.sec, r.of, r.alistamiento, r.codprod,
          r.producto, r.gramaje, r.diametro, r.ancho, r.peso, r.lote,
          r.nroOT, r.cantidadEnPrimeraUdM))) := by
  rw [ui_update_row_db_eq]
  split
  · simp only [db_update_row, List.getElem?_map, List.get?_eq_getElem?]
    cases hj : st.db[j]? with
    | none => rfl
    | some r =>
        simp only [Option.map_some']
        split <;> rfl
  · rfl

/-- C10: deletion returns `False` and leaves the database and the in-memory
list untouched when the selected row's `bobina_num` or `sec` is falsy
(None, `""`, or `0`); and a row leaves the in-memory list only when the
DELETE by natural key reported at least one affected row. -/
theorem C10_delete_row_guards (st : ModelState) (row_index : Nat) :
    (∀ (h : row_index < st.dataRows.length),
      (pyFalsy (st.dataRows.get ⟨row_index, h⟩).bobina_num = true
          ∨ pyFalsy (st.dataRows.get ⟨row_index, h⟩).sec = true) →
        ui_delete_row st row_index = (false, st))
    ∧ ((ui_delete_row st row_index).2.dataRows ≠ st.dataRows →
      ∃ (h : row_index < st.dataRows.length),
        0 < (db_delete_row st.db
              (pyStr (st.dataRows.get ⟨row_index, h⟩).bobina_num)
              (pyStr (st.dataRows.get ⟨row_index, h⟩).sec)).2) := by
  constructor
  · intro h hf
    unfold ui_delete_row
    rw [dif_pos h]
    dsimp only
    rw [if_pos hf]
  · intro hne
    unfold ui_delete_row at hne
    by_cases h : row_index < st.dataRows.length
    · rw [dif_pos h] at hne
      dsimp only at hne
      by_cases hf : pyFalsy (st.dataRows.get ⟨row_index, h⟩).bobina_num = true
          ∨ pyFalsy (st.dataRows.get ⟨row_index, h⟩).sec = true
      · rw [if_pos hf] at hne
        exact absurd rfl hne
      · rw [if_neg hf] at hne
        by_cases hc : 0 < (db_delete_row st.db
            (pyStr (st.dataRows.get ⟨row_index, h⟩).bobina_num)
            (pyStr (st.dataRows.get ⟨row_index, h⟩).sec)).2
        · exact ⟨h, hc⟩
        · rw [if_neg hc] at hne
          exact absurd rfl hne
    · rw [dif_neg h] at hne
      exact absurd rfl hne

/-- C10 witness: a falsy key (`sec = 0`) makes deletion a no-op returning
`False`, and a state that does lose its in-memory row has a matching
database row (`rowcount = 1 > 0`). -/
theorem C10_delete_row_guards_witness :
    ui_delete_row
        { dataRows := [{ bobina_num := vtext "100".data, sec := vint 0 }],
          db := [{ bobina_num := vtext "100".data, sec := vint 0 }] } 0
      = (false,
         { dataRows := [{ bobina_num := vtext "100".data, sec := vint 0 }],
           db := [{ bobina_num := vtext "100".data, sec := vint 0 }] })
    ∧ ∃ (h : (0 : Nat) < [({ bobina_num := vtext "100".data, sec := vint 1 }
          : BobinaRow)].length),
        0 < (db_delete_row [{ bobina_num := vtext "100".data, sec := vint 1 }]
              (pyStr ([({ bobina_num := vtext "100".data, sec := vint 1 }
                : BobinaRow)].get ⟨0, h⟩).bobina_num)
              (pyStr ([({ bobina_num := vtext "100".data, sec := vint 1 }
                : BobinaRow)].get ⟨0, h⟩).sec)).2 := by
  constructor
  · exact (C10_delete_row_guards
      { dataRows := [{ bobina_num := vtext "100".data, sec := vint 0 }],
        db := [{ bobina_num := vtext "100".data, sec := vint 0 }] } 0).1
      (by decide) (Or.inr (by decide))
  · exact (C10_delete_row_guards
      { dataRows := [{ bobina_num := vtext "100".data, sec := vint 1 }],
        db := [{ bobina_num := vtext "100".data, sec := vint 1 }] } 0).2
      (by decide)

/-- C7: the date formatter is claimed to convert the ISO string
`"2024-01-15"` to `"15/01/2024"`, but the code returns it unchanged: the
parsing chain is dead because the module never imports `re`, so every
string input comes back as-is via the exception handler. -/
theorem C7_format_date_iso_unchanged :
    _format_date (vtext "2024-01-15".data) = some (vtext "2024-01-15".data)
    ∧ "2024-01-15".data ≠ "15/01/2024".data
    ∧ _format_date (vtext "15/01/2024".data) = some (vtext "15/01/2024".data) := by
  decide

theorem le_length_zfill (w : Nat) (s : Str) : w ≤ (zfill w s).length := by
  unfold zfill
  split
  · omega
  · split
    · split
      · simp only [List.length_cons, List.length_append, List.length_replicate]
        omega
      · simp only [List.length_append, List.length_replicate, List.length_cons]
        omega
    · simp [List.length_replicate]

/-- C8 counterexample: on the unparsable input `"abc"` the weight-class
formatter returns the width-4 sentinel `"0000"`, not the width-3 `"000"`
the claim states, so the output width is not fixed at 3. -/
theorem C8_invalid_sentinel_has_width_four :
    _format_gramaje (vtext "abc".data) = "0000".data
    ∧ "0000".data ≠ "000".data
    ∧ ("0000".data : Str).length = 4 := by decide

/-- C8 amended: the weight-class formatter returns
`str(int(float(value))).zfill(3)` for parsable inputs (hence at least 3
characters, more when the integer part needs them), the width-3 sentinel
`"000"` for None, and the width-4 sentinel `"0000"` for unparsable inputs. -/
theorem C8_amended_gramaje_spec (v : DbVal) :
    (v = vnull → _format_gramaje v = "000".data)
    ∧ (∀ q : Dec10, v ≠ vnull → pyFloat v = some q →
        _format_gramaje v = zfill 3 (intStr q.trunc))
    ∧ (v ≠ vnull → pyFloat v = none → _format_gramaje v = "0000".data)
    ∧ 3 ≤ (_format_gramaje v).length := by
  refine ⟨fun hv => by rw [hv]; decide, fun q hv hq => ?_, fun hv hq => ?_, ?_⟩
  · simp [_format_gramaje, hv, hq]
  · simp [_format_gramaje, hv, hq]
  · by_cases hv : v = vnull
    · rw [hv]; decide
    · cases hq : pyFloat v with
      | none => simp [_format_gramaje, hv, hq]
      | some q =>
          simp only [_format_gramaje, hv, hq, if_neg]
          exact le_length_zfill 3 (intStr q.trunc)

/-- C8 amended witness: the claim's own example, `format_weight_class(7.9)
== "007"`, through the parsable branch. -/
theorem C8_amended_gramaje_witness :
    _format_gramaje (vreal (decOf 79 1)) = "007".data :=
  ((C8_amended_gramaje_spec (vreal (decOf 79 1))).2.1 (decOf 79 1)
    (by decide) rfl).trans (by decide)

end GestProd
